import Mathlib

/-!
Shallow embedding of the core pipeline of the solar-twin repository:
the alert classifier (`src/backend/src/services/alerts.ts`), the digital
twin prediction model (`src/unnamed/part_001`, `createDigitalTwin`), the
telemetry listener fan-out (`src/backend/src/services/telemetry.ts`), the
ThingSpeak sink publisher (`src/backend/src/services/thingspeak.ts`), the
orchestrator's deviation ratio and broadcast (`src/backend/src/index.ts`)
and the synthetic weather provider (`src/backend/src/services/weather.ts`).

JavaScript numbers are modelled by `ℚ` where the code only does field
arithmetic and comparisons, and by `ℝ` where the code uses `Math.sin`
(which is abstracted as a function parameter).  The one place the code
tests `isFinite` (the classifier's guard on `predictedKw`) models its
input by `JsNum`, a rational extended with the three non-finite IEEE
values.
-/

namespace SolarTwin

/-! ### Alert classifier — `src/backend/src/services/alerts.ts`

`AlertService.evaluate` receives `{ actualKw, predictedKw, ratio }` and a
configured `thresholdRatio`.  The guard `!isFinite(predictedKw) || predictedKw <= 0`
inspects only `predictedKw`, so only that field is modelled as a `JsNum`;
`ratio` and `actualKw` are only used as ordinary numbers here. -/

/-- Alert level, the `level` field of `AlertEvaluation`. -/
inductive Level where
  | ok
  | warning
  | critical
deriving DecidableEq, Repr

/-- Numeric rank of a `Level`, used to state that classification is
non-decreasing in the deviation ratio (`ok < warning < critical`). -/
def Level.rank : Level → Nat
  | .ok => 0
  | .warning => 1
  | .critical => 2

/-- Result record of `AlertService.evaluate` (alerts.ts lines 1–6). -/
structure AlertEvaluation where
  level : Level
  message : String
  ratio : ℚ
  shouldClean : Bool
deriving DecidableEq, Repr

/-- A JavaScript number as far as the classifier's guard observes it:
either a finite value (modelled by a rational) or one of `NaN`,
`Infinity`, `-Infinity`. -/
inductive JsNum where
  | fin (x : ℚ)
  | nan
  | posInf
  | negInf
deriving DecidableEq, Repr

/-- JS `isFinite(x)`. -/
def JsNum.isFinite : JsNum → Bool
  | .fin _ => true
  | _ => false

/-- JS comparison `x <= 0` (false on `NaN`, false on `Infinity`,
true on `-Infinity`). -/
def JsNum.leZero : JsNum → Bool
  | .fin x => decide (x ≤ 0)
  | .nan => false
  | .posInf => false
  | .negInf => true

/-- Input record of `AlertService.evaluate`. -/
structure AlertInput where
  actualKw : ℚ
  predictedKw : JsNum
  ratio : ℚ
deriving DecidableEq, Repr

/-- `AlertService.evaluate` (alerts.ts lines 11–17).  The class field
`thresholdRatio` is passed explicitly.  Returns `none` for the TS `null`. -/
def AlertService.evaluate (thresholdRatio : ℚ) (input : AlertInput) :
    Option AlertEvaluation :=
  if !input.predictedKw.isFinite || input.predictedKw.leZero then none
  else if input.ratio < thresholdRatio then
    some ⟨.ok, "Within expected range", input.ratio, false⟩
  else if input.ratio < thresholdRatio * 1.5 then
    some ⟨.warning, "Performance below expectation", input.ratio, false⟩
  else
    some ⟨.critical, "Significant performance drop detected", input.ratio, true⟩

/-- The level produced by `evaluate`, ranked; `0` when no alert is
produced (only used at inputs where an alert is produced). -/
def levelRankAt (thresholdRatio : ℚ) (input : AlertInput) : Nat :=
  ((AlertService.evaluate thresholdRatio input).map (fun e => e.level.rank)).getD 0

/-! ### Prediction model — `src/unnamed/part_001`, `createDigitalTwin().predict` -/

/-- Panel attributes (telemetry.ts lines 1–6). -/
structure PanelAttributes where
  panelId : String
  ratedKw : ℚ
  efficiency : ℚ
  areaM2 : ℚ
deriving DecidableEq, Repr

/-- Weather snapshot (weather.ts lines 1–6), polymorphic in the number
type: the prediction model consumes it over `ℚ`, the synthetic provider
produces it over `ℝ`. -/
structure WeatherSnapshot (α : Type) where
  temperatureC : α
  humidity : α
  cloudCover : α
  sunlightRatio : α
deriving DecidableEq, Repr

/-- Result of `predict`. -/
structure Prediction where
  energyKw : ℚ
deriving DecidableEq, Repr

/-- `createDigitalTwin(...).predict(panel, weather)` (part_001 lines 11–25),
transcribed let-for-let from the source. -/
def predict (panel : PanelAttributes) (weather : WeatherSnapshot ℚ) : Prediction :=
  let irradianceFactor := weather.sunlightRatio
  let tempCoefficientPerC : ℚ := -0.0045
  let ambient := weather.temperatureC
  let deltaT := max 0 (ambient - 25)
  let tempDerate := 1 + tempCoefficientPerC * deltaT
  let cloudFactor := 1 - 0.75 * weather.cloudCover
  let humidityDrag := 1 - 0.05 * (weather.humidity / 100)
  let factor := max 0 (irradianceFactor * tempDerate * cloudFactor * humidityDrag)
  let predictedKw := panel.ratedKw * factor
  { energyKw := predictedKw }

/-! ### Telemetry listener fan-out — `src/backend/src/services/telemetry.ts`

`createTelemetrySimulator` keeps `const listeners = new Set<cb>()`;
`onReading(cb)` does `listeners.add(cb)` and each tick runs
`for (const l of listeners) l(reading);` with no try/catch.

A JS `Set` keyed by reference is modelled as a duplicate-free list in
insertion order, with callbacks identified by their reference (a `Nat`
id).  A callback that may throw is modelled as a state-passing function
into `Except`, so that a run of `emit` either threads the state through
every callback or stops at the first thrown exception and propagates it. -/

/-- JS `Set.prototype.add`: append unless already present (insertion
order is preserved, duplicates are ignored). -/
def setAdd (s : List Nat) (c : Nat) : List Nat :=
  if c ∈ s then s else s ++ [c]

/-- `onReading(cb)` (telemetry.ts lines 48–52): `listeners.add(cb)`. -/
def onReading (listeners : List Nat) (cb : Nat) : List Nat :=
  setAdd listeners cb

/-- How many times one tick's `emit` invokes the callback `cb`: the loop
`for (const l of listeners) l(reading)` calls each element of the set
once, so `cb` is invoked once per occurrence in the listener collection. -/
def tickDeliveries (listeners : List Nat) (cb : Nat) : Nat :=
  listeners.count cb

/-- The loop body of `emit` (telemetry.ts lines 27–29):
`for (const l of listeners) l(reading);` — each listener is invoked in
order with the same reading; there is no try/catch, so a listener that
throws aborts the loop and the exception propagates to `emit`'s caller
(the `setInterval` tick). -/
def emitRun {α σ ε : Type} (listeners : List (α → σ → Except ε σ))
    (reading : α) (s : σ) : Except ε σ :=
  match listeners with
  | [] => .ok s
  | l :: rest =>
    match l reading s with
    | .error e => .error e
    | .ok s2 => emitRun rest reading s2

/-- A listener that always throws. -/
def throwingListener : Nat → List Nat → Except String (List Nat) :=
  fun _ _ => .error "listener failure"

/-- A listener that records its id in the shared log and returns. -/
def recordingListener (i : Nat) : Nat → List Nat → Except String (List Nat) :=
  fun _ log => .ok (log ++ [i])

/-! ### Subscriber broadcast — `src/backend/src/index.ts`, `broadcast`

`broadcast` serializes the payload once and runs
`for (const ws of subscribers) { try { ws.send(str); } catch {} }`:
each send is in its own failure boundary, so a throwing subscriber is
skipped and iteration continues with the state unchanged.  The return
type `σ` (not `Except ε σ`) records that `broadcast` cannot raise. -/

/-- The loop of `broadcast` (index.ts lines 40–45): deliver to each
subscriber in order, swallowing any exception a delivery throws. -/
def broadcastRun {α σ ε : Type} (subscribers : List (α → σ → Except ε σ))
    (msg : α) (s : σ) : σ :=
  match subscribers with
  | [] => s
  | sub :: rest =>
    match sub msg s with
    | .error _ => broadcastRun rest msg s
    | .ok s2 => broadcastRun rest msg s2

/-- A subscriber with id `i` that either throws on delivery (`bad = true`)
or records the delivery in the shared log. -/
def mkSubscriber (i : Nat) (bad : Bool) : Nat → List Nat → Except Unit (List Nat) :=
  fun _ log => if bad then .error () else .ok (log ++ [i])

/-! ### Deviation ratio — `src/backend/src/index.ts`, telemetry.onReading handler -/

/-- The orchestrator's per-tick ratio (index.ts lines 272–273):
`const diff = predicted.energyKw - reading.energyKw;`
`const ratio = Math.abs(diff) / Math.max(predicted.energyKw, 0.001);`. -/
def tickRatio (predictedKw actualKw : ℚ) : ℚ :=
  |predictedKw - actualKw| / max predictedKw 0.001

/-! ### ThingSpeak sink publisher — `src/backend/src/services/thingspeak.ts`

State is the `lastPostMs` field (initially 0) together with the
configured `minIntervalMs`.  Timestamps are integers (ms).  The network
call `axios.post` either resolves or rejects; `postUpdate` takes that
outcome as a parameter.  Its result records the successor state and
whether a network attempt was made; the result type has no error
channel, matching the method's catch-all (`postUpdate` never rejects). -/

structure ThingSpeakState where
  lastPostMs : ℤ
  minIntervalMs : ℤ
deriving DecidableEq, Repr

/-- Outcome of the single `axios.post` attempt. -/
inductive NetResult where
  | success
  | failure
deriving DecidableEq, Repr

/-- `canPostNow()` (thingspeak.ts lines 36–39):
`now - this.lastPostMs >= this.minIntervalMs`. -/
def canPostNow (st : ThingSpeakState) (now : ℤ) : Bool :=
  decide (now - st.lastPostMs ≥ st.minIntervalMs)

/-- Result of one `postUpdate` call: the successor state and whether a
network attempt was made. -/
structure PostOutcome where
  state : ThingSpeakState
  attempted : Bool
deriving DecidableEq, Repr

/-- `postUpdate(fields)` (thingspeak.ts lines 41–56): skip silently when
rate-limited; otherwise attempt once, setting `lastPostMs := now` only on
success and swallowing any failure. -/
def postUpdate (st : ThingSpeakState) (now : ℤ) (net : NetResult) : PostOutcome :=
  if !canPostNow st now then ⟨st, false⟩
  else
    match net with
    | .success => ⟨{ st with lastPostMs := now }, true⟩
    | .failure => ⟨st, true⟩

/-! ### Synthetic weather provider — `src/backend/src/services/weather.ts`

`WeatherProvider.getCurrentWeather` is a function of the wall clock
(`seconds = Date.now() / 1000`, a nonnegative real) built from `Math.sin`,
`Math.max` and `Math.min`; it always resolves (no `await`, no throw).
`Math.sin` is abstracted as the parameter `sinf`; every theorem supplies
the property `∀ x, |sinf x| ≤ 1` that `Math.sin` satisfies. -/

/-- JS `%` on numbers (`(seconds / 10) % 24`): for a nonnegative dividend
this is `x - y * ⌊x / y⌋`. -/
noncomputable def jsFmod (x y : ℝ) : ℝ :=
  x - y * (⌊x / y⌋ : ℤ)

/-- `getCurrentWeather()` (weather.ts lines 9–22), transcribed line for
line with `Math.sin` abstracted as `sinf` and `seconds = now / 1000`. -/
noncomputable def getCurrentWeather (sinf : ℝ → ℝ) (seconds : ℝ) :
    WeatherSnapshot ℝ :=
  let hour := jsFmod (seconds / 10) 24
  let diurnal := max 0 (sinf (((hour - 6) / 12) * Real.pi))
  let temperatureC := 20 + 12 * diurnal + 2 * sinf (seconds / 300)
  let cloudCover := min 1 (max 0 (0.3 + 0.3 * sinf (seconds / 200)))
  let humidity := 50 + 20 * sinf (seconds / 180)
  let sunlightRatio := diurnal * (1 - 0.6 * cloudCover)
  { temperatureC := temperatureC, humidity := humidity,
    cloudCover := cloudCover, sunlightRatio := sunlightRatio }

/-! ## Theorems -/

/-- On a finite positive `predictedKw` the guard of `evaluate` passes and
the result is the three-band `if` chain on the ratio alone. -/
lemma evaluate_fin_pos (T a p r : ℚ) (hp : 0 < p) :
    AlertService.evaluate T ⟨a, .fin p, r⟩ =
      if r < T then some ⟨.ok, "Within expected range", r, false⟩
      else if r < T * 1.5 then some ⟨.warning, "Performance below expectation", r, false⟩
      else some ⟨.critical, "Significant performance drop detected", r, true⟩ := by
  have hnp : ¬ (p ≤ 0) := not_le.mpr hp
  simp [AlertService.evaluate, JsNum.isFinite, JsNum.leZero, hnp]

/-- With a finite positive `predictedKw`, the rank of the produced level
is a step function of the ratio. -/
lemma levelRankAt_fin_pos (T a p r : ℚ) (hp : 0 < p) :
    levelRankAt T ⟨a, .fin p, r⟩ =
      if r < T then 0 else if r < T * 1.5 then 1 else 2 := by
  rw [levelRankAt, evaluate_fin_pos T a p r hp]
  split_ifs <;> simp [Level.rank]

/-- C1: for every threshold `T > 0` and every input with finite
`predictedKw > 0`, `AlertService.evaluate` returns `ok`/`shouldClean = false`
when `ratio < T`, `warning`/`false` when `T ≤ ratio < 1.5·T`, and
`critical`/`true` when `ratio ≥ 1.5·T`; in particular `ratio = T` yields
`warning` and `ratio = 1.5·T` yields `critical`, and the level is
non-decreasing in the ratio. -/
theorem alerts_three_band_classifier (T : ℚ) (hT : 0 < T) (a p : ℚ) (hp : 0 < p) :
    (∀ r : ℚ, r < T →
      AlertService.evaluate T ⟨a, .fin p, r⟩ =
        some ⟨.ok, "Within expected range", r, false⟩) ∧
    (∀ r : ℚ, T ≤ r → r < 1.5 * T →
      AlertService.evaluate T ⟨a, .fin p, r⟩ =
        some ⟨.warning, "Performance below expectation", r, false⟩) ∧
    (∀ r : ℚ, 1.5 * T ≤ r →
      AlertService.evaluate T ⟨a, .fin p, r⟩ =
        some ⟨.critical, "Significant performance drop detected", r, true⟩) ∧
    AlertService.evaluate T ⟨a, .fin p, T⟩ =
      some ⟨.warning, "Performance below expectation", T, false⟩ ∧
    AlertService.evaluate T ⟨a, .fin p, 1.5 * T⟩ =
      some ⟨.critical, "Significant performance drop detected", 1.5 * T, true⟩ ∧
    (∀ r1 r2 : ℚ, r1 ≤ r2 →
      levelRankAt T ⟨a, .fin p, r1⟩ ≤ levelRankAt T ⟨a, .fin p, r2⟩) := by
  refine ⟨?_, ?_, ?_, ?_, ?_, ?_⟩
  · intro r hr
    rw [evaluate_fin_pos T a p r hp, if_pos hr]
  · intro r hr1 hr2
    rw [evaluate_fin_pos T a p r hp, if_neg (not_lt.mpr hr1), if_pos (by linarith)]
  · intro r hr
    rw [evaluate_fin_pos T a p r hp, if_neg (by linarith), if_neg (by linarith)]
  · rw [evaluate_fin_pos T a p T hp, if_neg (lt_irrefl T), if_pos (by linarith)]
  · rw [evaluate_fin_pos T a p (1.5 * T) hp, if_neg (by linarith), if_neg (by linarith)]
  · intro r1 r2 h12
    rw [levelRankAt_fin_pos T a p r1 hp, levelRankAt_fin_pos T a p r2 hp]
    split_ifs <;> first | omega | (exfalso; linarith)

/-- Witness for C1: threshold `1/5`, predicted `1`, ratio `3/10 = 1.5·T`
classifies as `critical` with `shouldClean = true`. -/
theorem alerts_three_band_classifier_witness :
    0 < (1 : ℚ) / 5 ∧ 0 < (1 : ℚ) ∧
      AlertService.evaluate (1 / 5) ⟨0, .fin 1, 3 / 10⟩ =
        some ⟨.critical, "Significant performance drop detected", 3 / 10, true⟩ :=
  ⟨by norm_num, by norm_num, by
    have h := (alerts_three_band_classifier (1 / 5) (by norm_num) 0 1
        (by norm_num)).2.2.1 (3 / 10) (by norm_num)
    simpa using h⟩

/-- C7: `evaluate` is a total function (it cannot raise), and it returns
`null` whenever `predictedKw` is not finite or is a finite value `≤ 0`,
regardless of `actualKw` and `ratio`. -/
theorem alerts_null_without_baseline (T : ℚ) (input : AlertInput)
    (h : input.predictedKw.isFinite = false ∨
      ∃ x, input.predictedKw = .fin x ∧ x ≤ 0) :
    AlertService.evaluate T input = none := by
  have hguard : (!input.predictedKw.isFinite || input.predictedKw.leZero) = true := by
    rcases h with h | ⟨x, hx, hx0⟩
    · simp [h]
    · simp [hx, JsNum.leZero, hx0]
  simp [AlertService.evaluate, hguard]

/-- Witness for C7: a `NaN` predicted baseline yields no alert. -/
theorem alerts_null_without_baseline_witness :
    ((AlertInput.mk 1 .nan 2).predictedKw.isFinite = false ∨
      ∃ x, (AlertInput.mk 1 .nan 2).predictedKw = .fin x ∧ x ≤ 0) ∧
      AlertService.evaluate 0.2 ⟨1, .nan, 2⟩ = none :=
  ⟨Or.inl rfl, alerts_null_without_baseline 0.2 ⟨1, .nan, 2⟩ (Or.inl rfl)⟩

/-- C2: `predict(panel, weather)` equals exactly
`panel.ratedKw · max(0, sunlightRatio · (1 − 0.0045·max(0, temperatureC − 25)) ·
(1 − 0.75·cloudCover) · (1 − 0.05·(humidity/100)))`; it is a pure function
of its two arguments (the embedding has no state to affect). -/
theorem predict_closed_form (panel : PanelAttributes) (w : WeatherSnapshot ℚ) :
    predict panel w =
      { energyKw := panel.ratedKw *
          max 0 (w.sunlightRatio * (1 - 0.0045 * max 0 (w.temperatureC - 25)) *
            (1 - 0.75 * w.cloudCover) * (1 - 0.05 * (w.humidity / 100))) } := by
  simp only [predict]
  ring_nf

/-- C3 (refuting evaluation): `emit`'s loop has no failure boundary.  With
two registered listeners where the first throws, the run stops at the
first listener and the exception propagates out of `emit` into the timer
tick — the second listener is never invoked (no `.ok` state containing
its record is produced).  The second conjunct shows the same loop does
invoke both listeners when neither throws. -/
theorem emit_throw_aborts_loop :
    emitRun [throwingListener, recordingListener 2] 0 [] =
        .error "listener failure" ∧
      emitRun [recordingListener 1, recordingListener 2] 0 [] = .ok [1, 2] := by
  constructor <;> rfl

/-- C4 (counterexample): registering callback `7` twice on a fresh
simulator leaves a single registration — the `Set` de-duplicates — so one
tick delivers the reading to it once, not twice. -/
theorem onReading_duplicate_once_counterexample :
    tickDeliveries (onReading (onReading [] 7) 7) 7 = 1 ∧ (1 : Nat) ≠ 2 := by
  constructor
  · decide
  · decide

/-- C4 (amended): `onReading` is idempotent — registering the same
callback a second time leaves the listener set unchanged, because
listeners are kept in a `Set` keyed by callback reference — and a
callback registered twice on a fresh simulator receives each reading
exactly once per tick. -/
theorem onReading_duplicate_deduplicated (listeners : List Nat) (cb : Nat) :
    onReading (onReading listeners cb) cb = onReading listeners cb ∧
      tickDeliveries (onReading (onReading [] cb) cb) cb = 1 := by
  have hmem : cb ∈ setAdd listeners cb := by
    unfold setAdd
    split
    · assumption
    · simp
  constructor
  · show (if cb ∈ setAdd listeners cb then setAdd listeners cb
        else setAdd listeners cb ++ [cb]) = setAdd listeners cb
    rw [if_pos hmem]
  · simp [onReading, setAdd, tickDeliveries]

/-- C5: `postUpdate` is total (its result type has no error channel, the
`catch` swallows the attempt's failure).  `canPostNow` holds iff the
elapsed time since the last recorded post reaches the minimum interval;
when it fails, `postUpdate` makes no attempt and leaves the state
unchanged; when it holds, exactly one attempt is made, a success sets
`lastPostMs := now`, and a failure leaves the state unchanged. -/
theorem postUpdate_rate_limit_and_swallow (st : ThingSpeakState) (now : ℤ)
    (net : NetResult) :
    (canPostNow st now = true ↔ st.minIntervalMs ≤ now - st.lastPostMs) ∧
    (canPostNow st now = false → postUpdate st now net = ⟨st, false⟩) ∧
    (canPostNow st now = true → (postUpdate st now net).attempted = true) ∧
    (canPostNow st now = true → net = .success →
      postUpdate st now net = ⟨⟨now, st.minIntervalMs⟩, true⟩) ∧
    (canPostNow st now = true → net = .failure →
      postUpdate st now net = ⟨st, true⟩) := by
  refine ⟨?_, ?_, ?_, ?_, ?_⟩
  · simp [canPostNow, ge_iff_le]
  · intro h
    simp [postUpdate, h]
  · intro h
    cases net <;> simp [postUpdate, h]
  · intro h hnet
    subst hnet
    simp [postUpdate, h]
  · intro h hnet
    subst hnet
    simp [postUpdate, h]

/-- Witness for C5: with `lastPostMs = 0`, interval `16000` and
`now = 20000` the client may post; a rejected network attempt is
swallowed and leaves the state unchanged. -/
theorem postUpdate_rate_limit_and_swallow_witness :
    canPostNow ⟨0, 16000⟩ 20000 = true ∧
      postUpdate ⟨0, 16000⟩ 20000 .failure = ⟨⟨0, 16000⟩, true⟩ :=
  ⟨by decide,
    (postUpdate_rate_limit_and_swallow ⟨0, 16000⟩ 20000 .failure).2.2.2.2
      (by decide) rfl⟩

/-- C6 (counterexample): `cloudCover = 1` does not force the prediction
to `0`: the cloud factor is `1 − 0.75·1 = 0.25`, so a panel rated `4` at
full sunlight, `25 °C` and `0 %` humidity predicts `1`, not `0`. -/
theorem predict_cloud_one_not_zero_counterexample :
    (predict ⟨"DEMO-001", 4, 18 / 100, 55 / 2⟩
        { temperatureC := 25, humidity := 0, cloudCover := 1,
          sunlightRatio := 1 }).energyKw = 1 ∧ (1 : ℚ) ≠ 0 := by
  constructor
  · norm_num [predict]
  · norm_num

/-- C6 (amended): for humidity ∈ [0,100], cloudCover ∈ [0,1],
sunlightRatio ∈ [0,1] and ratedKw ≥ 0 (any temperature), `predict`
returns a value in `[0, ratedKw]` — never negative — and returns exactly
`0` when `sunlightRatio = 0`.  (`cloudCover = 1` does not force `0`; see
the counterexample.) -/
theorem predict_bounds (panel : PanelAttributes) (w : WeatherSnapshot ℚ)
    (hrated : 0 ≤ panel.ratedKw)
    (hhum0 : 0 ≤ w.humidity) (hhum1 : w.humidity ≤ 100)
    (hcloud0 : 0 ≤ w.cloudCover) (hcloud1 : w.cloudCover ≤ 1)
    (hsun0 : 0 ≤ w.sunlightRatio) (hsun1 : w.sunlightRatio ≤ 1) :
    0 ≤ (predict panel w).energyKw ∧
      (predict panel w).energyKw ≤ panel.ratedKw ∧
      (w.sunlightRatio = 0 → (predict panel w).energyKw = 0) := by
  simp only [predict]
  have hcf0 : (0 : ℚ) ≤ 1 - 0.75 * w.cloudCover := by linarith
  have hcf1 : 1 - 0.75 * w.cloudCover ≤ 1 := by linarith
  have hhd0 : (0 : ℚ) ≤ 1 - 0.05 * (w.humidity / 100) := by linarith
  have hhd1 : 1 - 0.05 * (w.humidity / 100) ≤ 1 := by linarith
  have htd1 : 1 + (-0.0045 : ℚ) * max 0 (w.temperatureC - 25) ≤ 1 := by
    have h0 : (0 : ℚ) ≤ max 0 (w.temperatureC - 25) := le_max_left _ _
    nlinarith
  have hfac1 : max 0 (w.sunlightRatio *
      (1 + (-0.0045 : ℚ) * max 0 (w.temperatureC - 25)) *
      (1 - 0.75 * w.cloudCover) * (1 - 0.05 * (w.humidity / 100))) ≤ 1 := by
    apply max_le (by norm_num)
    rcases le_or_lt (1 + (-0.0045 : ℚ) * max 0 (w.temperatureC - 25)) 0 with htd | htd
    · have h1 : w.sunlightRatio *
          (1 + (-0.0045 : ℚ) * max 0 (w.temperatureC - 25)) ≤ 0 :=
        mul_nonpos_of_nonneg_of_nonpos hsun0 htd
      have h2 : w.sunlightRatio *
          (1 + (-0.0045 : ℚ) * max 0 (w.temperatureC - 25)) *
          (1 - 0.75 * w.cloudCover) ≤ 0 :=
        mul_nonpos_of_nonpos_of_nonneg h1 hcf0
      have h3 : w.sunlightRatio *
          (1 + (-0.0045 : ℚ) * max 0 (w.temperatureC - 25)) *
          (1 - 0.75 * w.cloudCover) * (1 - 0.05 * (w.humidity / 100)) ≤ 0 :=
        mul_nonpos_of_nonpos_of_nonneg h2 hhd0
      linarith
    · have h1 : w.sunlightRatio *
          (1 + (-0.0045 : ℚ) * max 0 (w.temperatureC - 25)) ≤ 1 :=
        mul_le_one₀ hsun1 (le_of_lt htd) htd1
      have h1n : 0 ≤ w.sunlightRatio *
          (1 + (-0.0045 : ℚ) * max 0 (w.temperatureC - 25)) :=
        mul_nonneg hsun0 (le_of_lt htd)
      have h2 : w.sunlightRatio *
          (1 + (-0.0045 : ℚ) * max 0 (w.temperatureC - 25)) *
          (1 - 0.75 * w.cloudCover) ≤ 1 :=
        mul_le_one₀ h1 hcf0 hcf1
      have h2n : 0 ≤ w.sunlightRatio *
          (1 + (-0.0045 : ℚ) * max 0 (w.temperatureC - 25)) *
          (1 - 0.75 * w.cloudCover) := mul_nonneg h1n hcf0
      exact mul_le_one₀ h2 hhd0 hhd1
  refine ⟨?_, ?_, ?_⟩
  · exact mul_nonneg hrated (le_max_left _ _)
  · calc panel.ratedKw * max 0 (w.sunlightRatio *
          (1 + (-0.0045 : ℚ) * max 0 (w.temperatureC - 25)) *
          (1 - 0.75 * w.cloudCover) * (1 - 0.05 * (w.humidity / 100)))
        ≤ panel.ratedKw * 1 := mul_le_mul_of_nonneg_left hfac1 hrated
      _ = panel.ratedKw := mul_one _
  · intro hs
    simp [predict, hs]

/-- Witness for C6: the spec's end-to-end example — panel rated `5`,
`30 °C`, humidity `50`, cloud cover `0.2`, sunlight ratio `0.8` — lies in
`[0, 5]` and the zero clause holds vacuously. -/
theorem predict_bounds_witness :
    0 ≤ (5 : ℚ) ∧
      (0 ≤ (predict ⟨"DEMO-001", 5, 18 / 100, 55 / 2⟩
          { temperatureC := 30, humidity := 50, cloudCover := 1 / 5,
            sunlightRatio := 4 / 5 }).energyKw ∧
        (predict ⟨"DEMO-001", 5, 18 / 100, 55 / 2⟩
          { temperatureC := 30, humidity := 50, cloudCover := 1 / 5,
            sunlightRatio := 4 / 5 }).energyKw ≤ 5 ∧
        ((4 : ℚ) / 5 = 0 → (predict ⟨"DEMO-001", 5, 18 / 100, 55 / 2⟩
          { temperatureC := 30, humidity := 50, cloudCover := 1 / 5,
            sunlightRatio := 4 / 5 }).energyKw = 0)) :=
  ⟨by norm_num,
    predict_bounds ⟨"DEMO-001", 5, 18 / 100, 55 / 2⟩
      { temperatureC := 30, humidity := 50, cloudCover := 1 / 5,
        sunlightRatio := 4 / 5 }
      (by norm_num) (by norm_num) (by norm_num) (by norm_num) (by norm_num)
      (by norm_num) (by norm_num)⟩

/-- C8: for any roster of subscribers, each of which either throws on
delivery or records the delivery, `broadcast` delivers the message to
exactly the non-throwing subscribers, in registration order; throwing
subscribers are skipped without disturbing the others, and the run
returns a plain log — its type has no error channel, so `broadcast`
cannot raise to the orchestrator. -/
theorem broadcast_isolates_failures (subs : List (Nat × Bool)) (msg : Nat)
    (log : List Nat) :
    broadcastRun (subs.map fun p => mkSubscriber p.1 p.2) msg log =
      log ++ (subs.filter fun p => !p.2).map Prod.fst := by
  induction subs generalizing log with
  | nil => simp [broadcastRun]
  | cons hd tl ih =>
    cases hd with
    | mk i bad =>
      cases bad with
      | true =>
        simpa [broadcastRun, mkSubscriber] using ih log
      | false =>
        simp [broadcastRun, mkSubscriber, ih, List.append_assoc]

/-- C9: the orchestrator's per-tick deviation ratio is
`|predicted − actual| / max(predicted, 0.001)`; its denominator is
strictly positive (so the quotient is well defined on every finite
input), and the ratio is never negative. -/
theorem tickRatio_nonneg_well_defined (predictedKw actualKw : ℚ) :
    tickRatio predictedKw actualKw =
        |predictedKw - actualKw| / max predictedKw 0.001 ∧
      0 < max predictedKw (0.001 : ℚ) ∧
      0 ≤ tickRatio predictedKw actualKw := by
  have hden : (0 : ℚ) < max predictedKw 0.001 :=
    lt_of_lt_of_le (by norm_num) (le_max_right predictedKw 0.001)
  exact ⟨rfl, hden, div_nonneg (abs_nonneg _) (le_of_lt hden)⟩

/-- C10: for any sine function bounded by 1 in absolute value (as
`Math.sin` is) and any time, the synthetic weather snapshot satisfies
`cloudCover ∈ [0,1]`, `sunlightRatio ∈ [0,1]`, `humidity ∈ [30,70]` and
`temperatureC ∈ [18,34]`; the function is total, so the promise always
resolves. -/
theorem getCurrentWeather_bounds (sinf : ℝ → ℝ) (hsin : ∀ x : ℝ, |sinf x| ≤ 1)
    (seconds : ℝ) :
    (0 ≤ (getCurrentWeather sinf seconds).cloudCover ∧
        (getCurrentWeather sinf seconds).cloudCover ≤ 1) ∧
      (0 ≤ (getCurrentWeather sinf seconds).sunlightRatio ∧
        (getCurrentWeather sinf seconds).sunlightRatio ≤ 1) ∧
      (30 ≤ (getCurrentWeather sinf seconds).humidity ∧
        (getCurrentWeather sinf seconds).humidity ≤ 70) ∧
      (18 ≤ (getCurrentWeather sinf seconds).temperatureC ∧
        (getCurrentWeather sinf seconds).temperatureC ≤ 34) := by
  have hdiurnal := abs_le.mp
    (hsin (((jsFmod (seconds / 10) 24 - 6) / 12) * Real.pi))
  have h300 := abs_le.mp (hsin (seconds / 300))
  have h200 := abs_le.mp (hsin (seconds / 200))
  have h180 := abs_le.mp (hsin (seconds / 180))
  simp only [getCurrentWeather]
  have hd0 : (0 : ℝ) ≤ max 0
      (sinf (((jsFmod (seconds / 10) 24 - 6) / 12) * Real.pi)) :=
    le_max_left _ _
  have hd1 : max 0 (sinf (((jsFmod (seconds / 10) 24 - 6) / 12) * Real.pi)) ≤ 1 :=
    max_le (by norm_num) hdiurnal.2
  have hc0 : (0 : ℝ) ≤ min 1 (max 0 (0.3 + 0.3 * sinf (seconds / 200))) :=
    le_min (by norm_num) (le_max_left _ _)
  have hc1 : min 1 (max 0 (0.3 + 0.3 * sinf (seconds / 200))) ≤ 1 :=
    min_le_left _ _
  refine ⟨⟨hc0, hc1⟩, ⟨?_, ?_⟩, ⟨by linarith, by linarith⟩, ⟨by linarith, by linarith⟩⟩
  · exact mul_nonneg hd0 (by linarith)
  · exact mul_le_one₀ hd1 (by linarith) (by linarith)

/-- Witness for C10: the constant zero function is bounded by 1 in
absolute value, and at time 0 the snapshot's humidity bound holds. -/
theorem getCurrentWeather_bounds_witness :
    (∀ x : ℝ, |(fun _ : ℝ => (0 : ℝ)) x| ≤ 1) ∧
      30 ≤ (getCurrentWeather (fun _ : ℝ => (0 : ℝ)) 0).humidity :=
  ⟨fun x => by simp,
    (getCurrentWeather_bounds (fun _ : ℝ => (0 : ℝ))
      (fun x => by simp) 0).2.2.1.1⟩

end SolarTwin
